import Mathlib

/-!
Verification development for the MediConnect browser client.

The subject is the resilient API client wrapper: the axios instance with a
request interceptor (bearer-token and language header injection) and a
response interceptor (retry-once on connection-level failure, status-code
side effects, normalization of every failure into one structured error
shape), together with the persisted-session storage helpers it calls
(getToken, removeToken, removeUserRole, removeUserData, clearStorage).

Modelling conventions:
- localStorage is modelled by the record LocalStorage holding the four keys
  the wrapper touches; a missing key is none.
- JavaScript truthiness on the strings involved: null/undefined and the
  empty string are falsy, every other string is truthy. The source tests
  tokens with if (token) and applies the fallback operator x || d, so the
  model uses jsTruthy and jsOrString for exactly those spots.
- The browser window is modelled by World: the storage, the current
  pathname, a log of navigations (assignments to window.location.href), a
  log of retry delays (the setTimeout before a retry), and a log of every
  config handed to the transport (one entry per underlying attempt).
- The transport (axios core + network) is an oracle Nat → Outcome giving
  the outcome of each successive underlying attempt: a success response, an
  HTTP-error response (response object present), or a connection-level
  failure (no response object).
- runCall executes one logical call: request interceptor, dispatch, and the
  response interceptor error handler, recursing when the handler re-issues
  the request. Recursion is fueled; fuel 2 is always enough because the
  handler stamps the retry flag on the config before re-issuing.
-/

namespace MediConnect

/-- Headers of a request config, as an ordered association list with
JavaScript-object assignment semantics. -/
def getHeader : List (String × String) → String → Option String
  | [], _ => none
  | (k, v) :: rest, key => if k = key then some v else getHeader rest key

/-- Setting a header: replace the binding if the key exists, else append. -/
def setHeader : List (String × String) → String → String → List (String × String)
  | [], key, val => [(key, val)]
  | (k, v) :: rest, key, val =>
    if k = key then (key, val) :: rest else (k, v) :: setHeader rest key val

/-- JavaScript truthiness of a nullable string: null and the empty string
are falsy. -/
def jsTruthy : Option String → Bool
  | none => false
  | some s => s ≠ ""

/-- The JavaScript fallback x || d on a nullable string x. -/
def jsOrString : Option String → String → String
  | none, d => d
  | some s, d => if s = "" then d else s

/-- The JavaScript expression x || null on a nullable string x: an empty
string collapses to null. -/
def jsOrNull : Option String → Option String
  | none => none
  | some s => if s = "" then none else some s

/-- The four localStorage keys the wrapper reads or clears. A value of none
means the key is absent from the store. -/
structure LocalStorage where
  mediconnect_token : Option String
  mediconnect_role : Option String
  mediconnect_user : Option String
  mediconnect_language : Option String
deriving DecidableEq, Repr

/-- Source: getToken in the storage hooks module. -/
def getToken (st : LocalStorage) : Option String :=
  st.mediconnect_token

/-- Source: removeToken in the storage hooks module. -/
def removeToken (st : LocalStorage) : LocalStorage :=
  { st with mediconnect_token := none }

/-- Source: removeUserRole in the storage hooks module. -/
def removeUserRole (st : LocalStorage) : LocalStorage :=
  { st with mediconnect_role := none }

/-- Source: removeUserData in the storage hooks module. -/
def removeUserData (st : LocalStorage) : LocalStorage :=
  { st with mediconnect_user := none }

/-- Source: clearStorage in the storage hooks module; removes the token,
role and user-data keys in that order. -/
def clearStorage (st : LocalStorage) : LocalStorage :=
  removeUserData (removeUserRole (removeToken st))

/-- An outgoing request config: method, url, headers and the internal
retry flag the response interceptor stamps on it. A fresh config from a
caller has the flag unset. -/
structure Config where
  method : String
  url : String
  headers : List (String × String)
  isRetry : Bool
deriving DecidableEq, Repr

/-- The body of an HTTP response as the wrapper sees it: the optional
embedded message field reached by response.data?.message, and the rest of
the body kept opaque. A malformed-JSON body is a body with message none. -/
structure ResponseData where
  message : Option String
  raw : String
deriving DecidableEq, Repr

/-- An HTTP response: numeric status and body. -/
structure HttpResponse where
  status : Nat
  data : ResponseData
deriving DecidableEq, Repr

/-- A connection-level failure from the transport: no response object;
optional message and optional code. -/
structure TransportError where
  message : Option String
  code : Option String
deriving DecidableEq, Repr

/-- The Normalized Error shape every failed call rejects with. The data
field is present exactly on the HTTP-error path; the code and
originalError fields are present exactly on the network-error path (code
holds a nullable string, mirroring code: error?.code || null). -/
structure NormalizedError where
  status : Nat
  message : String
  data : Option ResponseData
  code : Option (Option String)
  originalError : Option TransportError
deriving DecidableEq, Repr

/-- Outcome of one underlying transport attempt. -/
inductive Outcome where
  | success (resp : HttpResponse)
  | httpError (resp : HttpResponse)
  | networkError (err : TransportError)
deriving DecidableEq, Repr

/-- Result of a logical call through the wrapper. outOfFuel is the fuel
cutoff of the model only; the theorems show it is unreachable with fuel 2
for a fresh config. -/
inductive CallResult where
  | resolved (resp : HttpResponse)
  | rejected (e : NormalizedError)
  | outOfFuel
deriving DecidableEq, Repr

/-- A call result that the wrapper actually settled: either resolved with
a response or rejected with a Normalized Error. -/
def CallResult.settled : CallResult → Bool
  | CallResult.outOfFuel => false
  | _ => true

/-- The browser-visible state the wrapper touches, plus observation logs:
navLog records each assignment of window.location.href, delays records
each setTimeout wait before a retry, dispatched records the config of each
underlying attempt handed to the transport. -/
structure World where
  storage : LocalStorage
  pathname : String
  navLog : List String
  delays : List Nat
  dispatched : List Config
deriving DecidableEq, Repr

/-- Source: the request interceptor. Reads the token via getToken and, when
truthy, sets the Authorization header to the Bearer form; then reads the
persisted language with fallback to en and sets the Accept-Language header
unconditionally. -/
def requestInterceptor (st : LocalStorage) (config : Config) : Config :=
  let withAuth :=
    match getToken st with
    | some token =>
      if token = "" then config
      else { config with
        headers := setHeader config.headers ("Authorization") (("Bearer ") ++ token) }
    | none => config
  let language := jsOrString st.mediconnect_language ("en")
  { withAuth with
    headers := setHeader withAuth.headers ("Accept-Language") language }

/-- Source: the status switch of the response interceptor error handler,
for the case where a response object is present. Only 401 has a
state-changing effect: clearStorage, then a navigation to /login unless
the pathname is already /login. The 403/404/500/default branches only log
to the console, which the model does not track. -/
def handleHttpError (w : World) (resp : HttpResponse) : World :=
  if resp.status = 401 then
    let w1 : World := { w with storage := clearStorage w.storage }
    if w1.pathname ≠ "/login" then
      { w1 with pathname := ("/login"), navLog := w1.navLog ++ [("/login")] }
    else w1
  else w

/-- Source: the structured rejection built when a response is present:
status from the response, message from response.data?.message with the
generic fallback, data the full response body. -/
def normalizeHttpError (resp : HttpResponse) : NormalizedError :=
  { status := resp.status
  , message := jsOrString resp.data.message ("An error occurred")
  , data := some resp.data
  , code := none
  , originalError := none }

/-- Source: the structured rejection built when no response is present:
status 0, message from error?.message with the generic network fallback,
code from error?.code || null, originalError the raw failure. -/
def normalizeNetworkError (err : TransportError) : NormalizedError :=
  { status := 0
  , message := jsOrString err.message ("Network error. Please check your connection.")
  , data := none
  , code := some (jsOrNull err.code)
  , originalError := some err }

/-- One logical call through the wrapper, driven by the transport oracle.
Each round: apply the request interceptor, hand the config to the
transport (logged in dispatched), then run the response interceptor on the
outcome. A connection-level failure on a config whose retry flag is unset
stamps the flag, logs the 1000 ms delay, and re-enters the pipeline with
the same config; every other path terminates the call. -/
def runCall : Nat → (Nat → Outcome) → World → Config → Nat → World × CallResult
  | 0, _, w, _, _ => (w, CallResult.outOfFuel)
  | fuel + 1, transport, w, config, idx =>
    let cfg := requestInterceptor w.storage config
    let w1 : World := { w with dispatched := w.dispatched ++ [cfg] }
    match transport idx with
    | Outcome.success resp => (w1, CallResult.resolved resp)
    | Outcome.httpError resp =>
      (handleHttpError w1 resp, CallResult.rejected (normalizeHttpError resp))
    | Outcome.networkError err =>
      if cfg.isRetry then
        (w1, CallResult.rejected (normalizeNetworkError err))
      else
        let w2 : World := { w1 with delays := w1.delays ++ [1000] }
        runCall fuel transport w2 { cfg with isRetry := true } (idx + 1)

/-- A logical call as issued by a caller: the pipeline starting at the
first attempt. -/
def apiCall (fuel : Nat) (transport : Nat → Outcome) (w : World) (config : Config) :
    World × CallResult :=
  runCall fuel transport w config 0

/-! Concrete inputs used by the closed instance theorems below. -/

/-- A store with a full persisted session. -/
def store0 : LocalStorage :=
  { mediconnect_token := some ("tok1")
  , mediconnect_role := some ("patient")
  , mediconnect_user := some ("u1")
  , mediconnect_language := none }

/-- A store whose token key holds the empty string: present, yet falsy. -/
def storeEmptyTok : LocalStorage :=
  { mediconnect_token := some ("")
  , mediconnect_role := none
  , mediconnect_user := none
  , mediconnect_language := none }

/-- A fresh caller config with no headers and the retry flag unset. -/
def cfg0 : Config :=
  { method := ("get"), url := ("/doctors"), headers := [], isRetry := false }

/-- A browser state on the patient dashboard with a full session. -/
def w0 : World :=
  { storage := store0
  , pathname := ("/patient-dashboard")
  , navLog := []
  , delays := []
  , dispatched := [] }

/-- A timeout-style transport error with a code. -/
def err0 : TransportError :=
  { message := some ("timeout of 10000ms exceeded"), code := some ("ECONNABORTED") }

/-- A transport error whose code is the empty string: present, yet falsy. -/
def errEmptyCode : TransportError :=
  { message := some ("socket hang up"), code := some ("") }

/-- A 500 response with a message in the body. -/
def resp500 : HttpResponse :=
  { status := 500, data := { message := some ("boom"), raw := ("server blew up") } }

/-- A 401 response as issued for an expired token. -/
def resp401 : HttpResponse :=
  { status := 401, data := { message := some ("jwt expired"), raw := ("") } }

/-- A successful response listing doctors. -/
def okResp : HttpResponse :=
  { status := 200, data := { message := none, raw := ("doctor list") } }

/-- Transport failing at the connection level on every attempt. -/
def netFailT : Nat → Outcome :=
  fun _ => Outcome.networkError err0

/-- Transport failing with an empty-string error code on every attempt. -/
def emptyCodeT : Nat → Outcome :=
  fun _ => Outcome.networkError errEmptyCode

/-- Transport answering 500 on every attempt. -/
def http500T : Nat → Outcome :=
  fun _ => Outcome.httpError resp500

/-- Transport answering 401 on every attempt. -/
def http401T : Nat → Outcome :=
  fun _ => Outcome.httpError resp401

/-- Transport succeeding on every attempt. -/
def okT : Nat → Outcome :=
  fun _ => Outcome.success okResp

/-- Transport with a connection failure on the first attempt and a success
on the retry. -/
def mixedT : Nat → Outcome :=
  fun n => if n = 0 then Outcome.networkError err0 else Outcome.success okResp

/-! Helper lemmas about headers, the interceptor and single pipeline
rounds. -/

theorem getHeader_setHeader_self (hs : List (String × String)) (key val : String) :
    getHeader (setHeader hs key val) key = some val := by
  induction hs with
  | nil => simp [setHeader, getHeader]
  | cons p rest ih =>
    by_cases h : p.1 = key
    · simp [setHeader, getHeader, h]
    · simp [setHeader, getHeader, h, ih]

theorem getHeader_setHeader_ne (hs : List (String × String)) (key key2 val : String)
    (hne : key ≠ key2) :
    getHeader (setHeader hs key val) key2 = getHeader hs key2 := by
  induction hs with
  | nil => simp [setHeader, getHeader, hne]
  | cons p rest ih =>
    by_cases h : p.1 = key
    · simp [setHeader, getHeader, h, hne]
    · simp [setHeader, getHeader, h, ih]

theorem getHeader_setAcceptLanguage (hs : List (String × String)) (val : String) :
    getHeader (setHeader hs ("Accept-Language") val) ("Authorization") =
      getHeader hs ("Authorization") :=
  getHeader_setHeader_ne hs _ _ val (by decide)

theorem requestInterceptor_isRetry (st : LocalStorage) (c : Config) :
    (requestInterceptor st c).isRetry = c.isRetry := by
  unfold requestInterceptor
  cases getToken st with
  | none => rfl
  | some t =>
    by_cases h : t = ""
    · simp [h]
    · simp [h]

theorem runCall_step_success (fuel : Nat) (t : Nat → Outcome) (w : World)
    (c : Config) (idx : Nat) (r : HttpResponse) (h : t idx = Outcome.success r) :
    runCall (fuel + 1) t w c idx =
      ({ w with dispatched := w.dispatched ++ [requestInterceptor w.storage c] },
        CallResult.resolved r) := by
  simp [runCall, h]

theorem runCall_step_httpError (fuel : Nat) (t : Nat → Outcome) (w : World)
    (c : Config) (idx : Nat) (r : HttpResponse) (h : t idx = Outcome.httpError r) :
    runCall (fuel + 1) t w c idx =
      (handleHttpError
          { w with dispatched := w.dispatched ++ [requestInterceptor w.storage c] } r,
        CallResult.rejected (normalizeHttpError r)) := by
  simp [runCall, h]

theorem runCall_step_network_fresh (fuel : Nat) (t : Nat → Outcome) (w : World)
    (c : Config) (idx : Nat) (e : TransportError) (h : t idx = Outcome.networkError e)
    (hc : c.isRetry = false) :
    runCall (fuel + 1) t w c idx =
      runCall fuel t
        { w with dispatched := w.dispatched ++ [requestInterceptor w.storage c]
               , delays := w.delays ++ [1000] }
        { requestInterceptor w.storage c with isRetry := true } (idx + 1) := by
  simp [runCall, h, requestInterceptor_isRetry, hc]

theorem runCall_step_network_retried (fuel : Nat) (t : Nat → Outcome) (w : World)
    (c : Config) (idx : Nat) (e : TransportError) (h : t idx = Outcome.networkError e)
    (hc : c.isRetry = true) :
    runCall (fuel + 1) t w c idx =
      ({ w with dispatched := w.dispatched ++ [requestInterceptor w.storage c] },
        CallResult.rejected (normalizeNetworkError e)) := by
  simp [runCall, h, requestInterceptor_isRetry, hc]

theorem handleHttpError_not401 (w : World) (r : HttpResponse) (h : r.status ≠ 401) :
    handleHttpError w r = w := by
  simp [handleHttpError, h]

theorem handleHttpError_401 (w : World) (r : HttpResponse) (h : r.status = 401) :
    handleHttpError w r =
      { w with storage := clearStorage w.storage
             , pathname := ("/login")
             , navLog := w.navLog ++ (if w.pathname = "/login" then [] else [("/login")]) } := by
  by_cases hp : w.pathname = "/login"
  · simp [handleHttpError, h, hp]
  · simp [handleHttpError, h, hp]

theorem handleHttpError_dispatched (w : World) (r : HttpResponse) :
    (handleHttpError w r).dispatched = w.dispatched := by
  by_cases h : r.status = 401
  · rw [handleHttpError_401 _ _ h]
  · rw [handleHttpError_not401 _ _ h]

theorem handleHttpError_delays (w : World) (r : HttpResponse) :
    (handleHttpError w r).delays = w.delays := by
  by_cases h : r.status = 401
  · rw [handleHttpError_401 _ _ h]
  · rw [handleHttpError_not401 _ _ h]

/-- Claim C1: when both the original attempt and the retry fail at the
connection level, the wrapper makes exactly 2 underlying attempts and
rejects with a Normalized Error of status 0; no third attempt happens for
any amount of available fuel, because the retry flag is stamped on the
config before the retry is issued. -/
theorem single_retry_bound (fuel : Nat) (t : Nat → Outcome) (w : World)
    (config : Config) (e1 e2 : TransportError) (hf : 2 ≤ fuel)
    (hc : config.isRetry = false) (h0 : t 0 = Outcome.networkError e1)
    (h1 : t 1 = Outcome.networkError e2) :
    (apiCall fuel t w config).2 = CallResult.rejected (normalizeNetworkError e2) ∧
    (normalizeNetworkError e2).status = 0 ∧
    ((apiCall fuel t w config).1).dispatched.length = w.dispatched.length + 2 := by
  obtain ⟨f, rfl⟩ : ∃ f, fuel = f + 1 + 1 := ⟨fuel - 2, by omega⟩
  unfold apiCall
  rw [runCall_step_network_fresh (f + 1) t w config 0 e1 h0 hc,
    runCall_step_network_retried f t _ _ 1 e2 h1 rfl]
  refine ⟨rfl, rfl, ?_⟩
  simp

theorem single_retry_bound_witness :
    (apiCall 2 netFailT w0 cfg0).2 = CallResult.rejected (normalizeNetworkError err0) ∧
    (normalizeNetworkError err0).status = 0 ∧
    ((apiCall 2 netFailT w0 cfg0).1).dispatched.length = w0.dispatched.length + 2 :=
  single_retry_bound 2 netFailT w0 cfg0 err0 err0 (by decide) rfl rfl rfl

/-- Claim C2: when an attempt receives an HTTP response with a failure
status, the wrapper makes exactly 1 underlying attempt (no retry once a
response object is present) and rejects with a Normalized Error whose
status is the HTTP status and whose data is the full response body. -/
theorem http_error_single_attempt (fuel : Nat) (t : Nat → Outcome) (w : World)
    (config : Config) (resp : HttpResponse) (hf : 1 ≤ fuel)
    (h0 : t 0 = Outcome.httpError resp) :
    (apiCall fuel t w config).2 = CallResult.rejected (normalizeHttpError resp) ∧
    (normalizeHttpError resp).status = resp.status ∧
    (normalizeHttpError resp).data = some resp.data ∧
    ((apiCall fuel t w config).1).dispatched.length = w.dispatched.length + 1 := by
  obtain ⟨f, rfl⟩ : ∃ f, fuel = f + 1 := ⟨fuel - 1, by omega⟩
  unfold apiCall
  rw [runCall_step_httpError f t w config 0 resp h0]
  refine ⟨rfl, rfl, rfl, ?_⟩
  rw [handleHttpError_dispatched]
  simp

theorem http_error_single_attempt_witness :
    (apiCall 1 http500T w0 cfg0).2 = CallResult.rejected (normalizeHttpError resp500) ∧
    (normalizeHttpError resp500).status = resp500.status ∧
    (normalizeHttpError resp500).data = some resp500.data ∧
    ((apiCall 1 http500T w0 cfg0).1).dispatched.length = w0.dispatched.length + 1 :=
  http_error_single_attempt 1 http500T w0 cfg0 resp500 (by decide) rfl

/-- Claim C5: 401 is the only status that destroys the persisted session;
any response with a different status leaves the token, role and user-data
keys untouched. -/
theorem non_unauthorized_preserves_session (fuel : Nat) (t : Nat → Outcome)
    (w : World) (config : Config) (resp : HttpResponse) (hf : 1 ≤ fuel)
    (h0 : t 0 = Outcome.httpError resp) (hs : resp.status ≠ 401) :
    ((apiCall fuel t w config).1).storage.mediconnect_token =
      w.storage.mediconnect_token ∧
    ((apiCall fuel t w config).1).storage.mediconnect_role =
      w.storage.mediconnect_role ∧
    ((apiCall fuel t w config).1).storage.mediconnect_user =
      w.storage.mediconnect_user := by
  obtain ⟨f, rfl⟩ : ∃ f, fuel = f + 1 := ⟨fuel - 1, by omega⟩
  unfold apiCall
  rw [runCall_step_httpError f t w config 0 resp h0, handleHttpError_not401 _ _ hs]
  exact ⟨rfl, rfl, rfl⟩

theorem non_unauthorized_preserves_session_witness :
    ((apiCall 1 http500T w0 cfg0).1).storage.mediconnect_token =
      w0.storage.mediconnect_token ∧
    ((apiCall 1 http500T w0 cfg0).1).storage.mediconnect_role =
      w0.storage.mediconnect_role ∧
    ((apiCall 1 http500T w0 cfg0).1).storage.mediconnect_user =
      w0.storage.mediconnect_user :=
  non_unauthorized_preserves_session 1 http500T w0 cfg0 resp500 (by decide) rfl
    (by decide)

/-- Claim C6: error normalization is total. With fuel 2 a fresh logical
call always settles: it resolves with a response or rejects with a
Normalized Error, whose status and message fields are a Nat and a String
by construction; the fuel cutoff of the model is never reached and no
failure escapes in another shape. -/
theorem error_normalization_total (fuel : Nat) (t : Nat → Outcome) (w : World)
    (config : Config) (hf : 2 ≤ fuel) (hc : config.isRetry = false) :
    CallResult.settled (apiCall fuel t w config).2 = true := by
  obtain ⟨f, rfl⟩ : ∃ f, fuel = f + 1 + 1 := ⟨fuel - 2, by omega⟩
  unfold apiCall
  cases h0 : t 0 with
  | success r =>
    rw [runCall_step_success (f + 1) t w config 0 r h0]
    rfl
  | httpError r =>
    rw [runCall_step_httpError (f + 1) t w config 0 r h0]
    rfl
  | networkError e =>
    rw [runCall_step_network_fresh (f + 1) t w config 0 e h0 hc]
    cases h1 : t 1 with
    | success r =>
      rw [runCall_step_success f t _ _ 1 r h1]
      rfl
    | httpError r =>
      rw [runCall_step_httpError f t _ _ 1 r h1]
      rfl
    | networkError e2 =>
      rw [runCall_step_network_retried f t _ _ 1 e2 h1 rfl]
      rfl

theorem error_normalization_total_witness :
    CallResult.settled (apiCall 2 netFailT w0 cfg0).2 = true :=
  error_normalization_total 2 netFailT w0 cfg0 (by decide) rfl

/-- Claim C8: a successful attempt resolves with the response passed
through unchanged, and the persisted session is not mutated on the success
path. -/
theorem success_passes_through (fuel : Nat) (t : Nat → Outcome) (w : World)
    (config : Config) (resp : HttpResponse) (hf : 1 ≤ fuel)
    (h0 : t 0 = Outcome.success resp) :
    (apiCall fuel t w config).2 = CallResult.resolved resp ∧
    ((apiCall fuel t w config).1).storage = w.storage := by
  obtain ⟨f, rfl⟩ : ∃ f, fuel = f + 1 := ⟨fuel - 1, by omega⟩
  unfold apiCall
  rw [runCall_step_success f t w config 0 resp h0]
  exact ⟨rfl, rfl⟩

theorem success_passes_through_witness :
    (apiCall 1 okT w0 cfg0).2 = CallResult.resolved okResp ∧
    ((apiCall 1 okT w0 cfg0).1).storage = w0.storage :=
  success_passes_through 1 okT w0 cfg0 okResp (by decide) rfl

/-- Claim C9: the session clear is idempotent; applying clearStorage twice
to any store yields the same store as applying it once. -/
theorem clearStorage_idempotent (st : LocalStorage) :
    clearStorage (clearStorage st) = clearStorage st := rfl

/-- Claim C3, counterexample to the claim as stated: an empty-string token
is present in the persisted store (getToken returns it, isSome), yet the
interceptor adds no Authorization header, because the source guards the
injection with JavaScript truthiness, under which the empty string is
falsy. -/
theorem auth_header_empty_token_counterexample :
    (getToken storeEmptyTok).isSome = true ∧
    getHeader (requestInterceptor storeEmptyTok cfg0).headers ("Authorization") =
      none := by
  decide

/-- Claim C3, amended: if a non-empty token is persisted, the dispatched
config carries the Authorization header with the Bearer form of that
token; if no token or an empty-string token is persisted, the interceptor
leaves the Authorization header exactly as the caller set it (in
particular it adds none). -/
theorem auth_header_matches_truthy_token (st : LocalStorage) (c : Config) :
    getHeader (requestInterceptor st c).headers ("Authorization") =
      (match getToken st with
       | some token =>
         if token = "" then getHeader c.headers ("Authorization")
         else some (("Bearer ") ++ token)
       | none => getHeader c.headers ("Authorization")) := by
  unfold requestInterceptor
  cases h : getToken st with
  | none => simp [getHeader_setAcceptLanguage]
  | some token =>
    by_cases ht : token = ""
    · simp [ht, getHeader_setAcceptLanguage]
    · simp [ht, getHeader_setAcceptLanguage, getHeader_setHeader_self]

/-- Claim C4: a 401 response with a persisted session removes all three
session keys in the same step that produces the rejection, navigates to
the login path exactly once when the current path differs from it and not
at all when the page is already there, and still rejects with a
Normalized Error of status 401. -/
theorem unauthorized_clears_session_and_redirects (fuel : Nat) (t : Nat → Outcome)
    (w : World) (config : Config) (resp : HttpResponse) (hf : 1 ≤ fuel)
    (h0 : t 0 = Outcome.httpError resp) (hs : resp.status = 401)
    (htok : (w.storage.mediconnect_token).isSome = true)
    (hrole : (w.storage.mediconnect_role).isSome = true)
    (huser : (w.storage.mediconnect_user).isSome = true) :
    ((apiCall fuel t w config).1).storage.mediconnect_token = none ∧
    ((apiCall fuel t w config).1).storage.mediconnect_role = none ∧
    ((apiCall fuel t w config).1).storage.mediconnect_user = none ∧
    ((apiCall fuel t w config).1).navLog =
      w.navLog ++ (if w.pathname = "/login" then [] else [("/login")]) ∧
    ((apiCall fuel t w config).1).pathname = ("/login") ∧
    (apiCall fuel t w config).2 = CallResult.rejected (normalizeHttpError resp) ∧
    (normalizeHttpError resp).status = 401 := by
  obtain ⟨f, rfl⟩ : ∃ f, fuel = f + 1 := ⟨fuel - 1, by omega⟩
  unfold apiCall
  rw [runCall_step_httpError f t w config 0 resp h0, handleHttpError_401 _ _ hs]
  exact ⟨rfl, rfl, rfl, rfl, rfl, rfl, hs⟩

theorem unauthorized_clears_session_witness :
    ((apiCall 1 http401T w0 cfg0).1).storage.mediconnect_token = none ∧
    ((apiCall 1 http401T w0 cfg0).1).storage.mediconnect_role = none ∧
    ((apiCall 1 http401T w0 cfg0).1).storage.mediconnect_user = none ∧
    ((apiCall 1 http401T w0 cfg0).1).navLog = w0.navLog ++ [("/login")] ∧
    ((apiCall 1 http401T w0 cfg0).1).pathname = ("/login") ∧
    (apiCall 1 http401T w0 cfg0).2 = CallResult.rejected (normalizeHttpError resp401) ∧
    (normalizeHttpError resp401).status = 401 :=
  unauthorized_clears_session_and_redirects 1 http401T w0 cfg0 resp401 (by decide)
    rfl rfl rfl rfl rfl

/-- Claim C7: on the first connection-level failure of a not-yet-retried
call, the wrapper waits the fixed 1000 ms delay once, re-issues the same
config exactly once with the retry flag stamped, and the outcome of that
second attempt, whatever it is, becomes the outcome of the logical call. -/
theorem retry_reissues_once_and_decides (fuel : Nat) (t : Nat → Outcome) (w : World)
    (config : Config) (e : TransportError) (hf : 2 ≤ fuel)
    (hc : config.isRetry = false) (h0 : t 0 = Outcome.networkError e) :
    ((apiCall fuel t w config).1).delays = w.delays ++ [1000] ∧
    ((apiCall fuel t w config).1).dispatched =
      w.dispatched ++ [requestInterceptor w.storage config,
        requestInterceptor w.storage
          { requestInterceptor w.storage config with isRetry := true }] ∧
    (apiCall fuel t w config).2 =
      (match t 1 with
       | Outcome.success r => CallResult.resolved r
       | Outcome.httpError r => CallResult.rejected (normalizeHttpError r)
       | Outcome.networkError e2 => CallResult.rejected (normalizeNetworkError e2)) := by
  obtain ⟨f, rfl⟩ : ∃ f, fuel = f + 1 + 1 := ⟨fuel - 2, by omega⟩
  unfold apiCall
  rw [runCall_step_network_fresh (f + 1) t w config 0 e h0 hc]
  cases h1 : t 1 with
  | success r =>
    rw [runCall_step_success f t _ _ 1 r h1]
    refine ⟨rfl, ?_, rfl⟩
    simp
  | httpError r =>
    rw [runCall_step_httpError f t _ _ 1 r h1]
    refine ⟨?_, ?_, rfl⟩
    · rw [handleHttpError_delays]
    · rw [handleHttpError_dispatched]
      simp
  | networkError e2 =>
    rw [runCall_step_network_retried f t _ _ 1 e2 h1 rfl]
    refine ⟨rfl, ?_, rfl⟩
    simp

theorem retry_reissues_once_and_decides_witness :
    ((apiCall 2 mixedT w0 cfg0).1).delays = w0.delays ++ [1000] ∧
    ((apiCall 2 mixedT w0 cfg0).1).dispatched =
      w0.dispatched ++ [requestInterceptor w0.storage cfg0,
        requestInterceptor w0.storage
          { requestInterceptor w0.storage cfg0 with isRetry := true }] ∧
    (apiCall 2 mixedT w0 cfg0).2 = CallResult.resolved okResp :=
  retry_reissues_once_and_decides 2 mixedT w0 cfg0 err0 (by decide) rfl rfl

/-- Claim C10, counterexample to the claim as stated: a transport error
whose code is the empty string exposes a code (the field is present), yet
the rejection carries code null rather than that code, because the source
builds the field with the fallback code || null and the empty string is
falsy. -/
theorem network_error_code_counterexample :
    errEmptyCode.code = some ("") ∧
    (apiCall 2 emptyCodeT w0 cfg0).2 =
      CallResult.rejected (normalizeNetworkError errEmptyCode) ∧
    (normalizeNetworkError errEmptyCode).code = some none ∧
    ¬ (normalizeNetworkError errEmptyCode).code = some (errEmptyCode.code) := by
  decide

/-- Claim C10, amended: every connection-level rejection carries a present
code field, equal to the transport code when that code is a non-empty
string and null otherwise, and a present originalError field holding the
raw transport failure. -/
theorem network_error_includes_code_and_original (fuel : Nat) (t : Nat → Outcome)
    (w : World) (config : Config) (e1 e2 : TransportError) (hf : 2 ≤ fuel)
    (hc : config.isRetry = false) (h0 : t 0 = Outcome.networkError e1)
    (h1 : t 1 = Outcome.networkError e2) :
    (apiCall fuel t w config).2 = CallResult.rejected (normalizeNetworkError e2) ∧
    (normalizeNetworkError e2).status = 0 ∧
    (normalizeNetworkError e2).code =
      some (match e2.code with
            | some c => if c = "" then none else some c
            | none => none) ∧
    (normalizeNetworkError e2).originalError = some e2 := by
  obtain ⟨f, rfl⟩ : ∃ f, fuel = f + 1 + 1 := ⟨fuel - 2, by omega⟩
  unfold apiCall
  rw [runCall_step_network_fresh (f + 1) t w config 0 e1 h0 hc,
    runCall_step_network_retried f t _ _ 1 e2 h1 rfl]
  refine ⟨rfl, rfl, ?_, rfl⟩
  cases hcase : e2.code with
  | none => simp [normalizeNetworkError, jsOrNull, hcase]
  | some c =>
    by_cases hcc : c = ""
    · simp [normalizeNetworkError, jsOrNull, hcase, hcc]
    · simp [normalizeNetworkError, jsOrNull, hcase, hcc]

theorem network_error_includes_code_and_original_witness :
    (apiCall 2 netFailT w0 cfg0).2 = CallResult.rejected (normalizeNetworkError err0) ∧
    (normalizeNetworkError err0).status = 0 ∧
    (normalizeNetworkError err0).code = some (some ("ECONNABORTED")) ∧
    (normalizeNetworkError err0).originalError = some err0 :=
  network_error_includes_code_and_original 2 netFailT w0 cfg0 err0 err0 (by decide)
    rfl rfl rfl

end MediConnect
